import Mathlib

/-!
Shallow embedding of the ToneScope analysis core (`src/utils/audioUtils.js`):
`PitchDetector`, `frequencyToNote`, `KeyDetector` and `BeatDetector`.

JavaScript numbers are modelled as exact rationals (`ℚ`) except where the
source takes a logarithm (`frequencyToNote`, modelled over `ℝ`) or a square
root.  `Date.now()` timestamps are integers (`ℤ`).  JavaScript
`Math.round x` is `⌊x + 1/2⌋` (round half towards `+∞`), which agrees with
the JS semantics on every finite input.
-/

/-- JavaScript `Math.round` on an exact rational: round half towards `+∞`. -/
def jsRound (q : ℚ) : ℤ := ⌊q + 1/2⌋

/-- The `push`-then-`shift` pattern used for every bounded history in the
source (`arr.push(x); if (arr.length > cap) arr.shift();`). -/
def pushShift {α : Type} (cap : ℕ) (l : List α) (x : α) : List α :=
  if cap < (l ++ [x]).length then (l ++ [x]).tail else l ++ [x]

theorem pushShift_length_le {α : Type} (cap : ℕ) (l : List α) (x : α)
    (h : l.length ≤ cap) : (pushShift cap l x).length ≤ cap := by
  unfold pushShift
  by_cases hc : cap < (l ++ [x]).length
  · rw [if_pos hc]
    simp only [List.length_tail, List.length_append, List.length_cons,
      List.length_nil]
    omega
  · rw [if_neg hc]
    simp only [List.length_append, List.length_cons, List.length_nil] at hc ⊢
    omega

theorem mem_pushShift {α : Type} (cap : ℕ) (l : List α) (x : α) (y : α)
    (h : y ∈ pushShift cap l x) : y ∈ l ∨ y = x := by
  unfold pushShift at h
  by_cases hc : cap < (l ++ [x]).length
  · rw [if_pos hc] at h
    have := List.mem_of_mem_tail h
    simpa using this
  · rw [if_neg hc] at h
    simpa using h

theorem pushShift_eq_of_le {α : Type} (cap : ℕ) (l : List α) (x : α)
    (hcap : 0 < cap) (h : l.length ≤ cap) :
    pushShift cap l x = if l.length < cap then l ++ [x] else l.tail ++ [x] := by
  unfold pushShift
  by_cases hlt : l.length < cap
  · rw [if_pos hlt, if_neg (by simp; omega)]
  · rw [if_neg hlt, if_pos (by simp; omega)]
    cases l with
    | nil => exact absurd hcap (by simpa using hlt)
    | cons a t => simp

/-! ## PitchDetector (audioUtils.js lines 2–82) -/

/-- State of `PitchDetector`: the analyser's `fftSize`, the cached
`bufferLength` and the `Float32Array` time-domain `buffer` (zero-filled on
reallocation). -/
structure PitchDetector where
  fftSize : ℕ
  bufferLength : ℕ
  buffer : List ℚ
deriving DecidableEq

/-- The Web Audio `AnalyserNode.fftSize` setter (an external platform API,
not repository code) accepts exactly the powers of two in `[32, 32768]` and
throws an `IndexSizeError` for every other value; modelled as this validity
test. -/
def validFftSize (n : ℕ) : Bool :=
  ((List.range 16).any fun k => n == 2 ^ k) && decide (32 ≤ n) && decide (n ≤ 32768)

/-- The `PitchDetector` constructor (lines 3–9) given a valid `fftSize`
(the app only constructs with sizes from its dropdown). -/
def PitchDetector.init (fftSize : ℕ) : PitchDetector :=
  { fftSize := fftSize, bufferLength := fftSize, buffer := List.replicate fftSize 0 }

/-- Source `PitchDetector.setFftSize` (lines 11–15).  The flag is `false` when the
analyser's `fftSize` setter throws (invalid size); the throw happens on the
first statement, before any field of the object is written, so the state is
returned unchanged in that case. -/
def PitchDetector.setFftSize (s : PitchDetector) (n : ℕ) : PitchDetector × Bool :=
  if validFftSize n then
    ({ fftSize := n, bufferLength := n, buffer := List.replicate n 0 }, true)
  else (s, false)

/-- One correlation score of `autoCorrelate` (lines 38–44): `1 −` the mean
absolute difference between the buffer and its copy shifted by `offset`,
taken over the first `maxSamples` indices. -/
def correlationAt (buf : List ℚ) (maxSamples : ℕ) (offset : ℕ) : ℚ :=
  1 - ((List.range maxSamples).foldl
        (fun acc i => acc + |buf.getD i 0 - buf.getD (i + offset) 0|) (0 : ℚ))
      / (maxSamples : ℚ)

/-- The parabolic-interpolation shift (lines 57–58).  Exact rationals give
`0` on a zero denominator where JS floats would give `±Infinity`/`NaN`;
no claim depends on that case. -/
def parabolicShift (buf : List ℚ) (bestOffset : ℕ) : ℚ :=
  (buf.getD (bestOffset + 1) 0 - buf.getD (bestOffset - 1) 0) /
    (2 * (2 * buf.getD bestOffset 0 - buf.getD (bestOffset - 1) 0
            - buf.getD (bestOffset + 1) 0))

/-- The lag-search loop of `autoCorrelate` (lines 36–64), over the list of
remaining offsets, carrying `lastCorrelation`, `bestCorrelation` and
`bestOffset`.  The first component is `some f` when the loop returned early
with frequency `f`; otherwise it is `none`, paired with the final
`bestCorrelation` and `bestOffset`.  Note that the source assigns
`bestCorrelation`/`bestOffset` only inside the branch that immediately
returns (`foundGoodCorrelation` is declared afresh each iteration and the
early return uses the just-updated best values). -/
def acLoop (buf : List ℚ) (maxSamples : ℕ) (sampleRate : ℚ) :
    List ℕ → ℚ → ℚ → ℤ → Option ℚ × ℚ × ℤ
  | [], _, bestCorr, bestOff => (none, bestCorr, bestOff)
  | offset :: rest, lastCorr, bestCorr, bestOff =>
    if (9/10 : ℚ) < correlationAt buf maxSamples offset ∧
        lastCorr < correlationAt buf maxSamples offset then
      if bestCorr < correlationAt buf maxSamples offset then
        (some (sampleRate / ((offset : ℚ) + parabolicShift buf offset)),
          correlationAt buf maxSamples offset, (offset : ℤ))
      else
        acLoop buf maxSamples sampleRate rest
          (correlationAt buf maxSamples offset) bestCorr bestOff
    else
      acLoop buf maxSamples sampleRate rest
        (correlationAt buf maxSamples offset) bestCorr bestOff

/-- Source `PitchDetector.autoCorrelate` (lines 18–71).  The RMS silence gate
`sqrt(Σ v² / size) < 0.01` is encoded as the equivalent square-free test
`Σ v² / size < 1/10000` (both sides nonnegative) to stay in exact
rationals.  For an empty buffer both the JS code (via NaN comparisons) and
this model return `-1`. -/
def PitchDetector.autoCorrelate (buf : List ℚ) (sampleRate : ℚ) : ℚ :=
  if (buf.foldl (fun acc v => acc + v * v) (0 : ℚ)) / (buf.length : ℚ) < 1/10000 then
    -1
  else
    match acLoop buf (buf.length / 2) sampleRate
        (List.range' 1 (buf.length / 2 - 1)) 1 0 (-1) with
    | (some f, _, _) => f
    | (none, bestCorr, bestOff) =>
        if 1/100 < bestCorr then sampleRate / (bestOff : ℚ) else -1

theorem acLoop_none_best (buf : List ℚ) (maxSamples : ℕ) (rate : ℚ)
    (offs : List ℕ) :
    ∀ (lastCorr bestCorr : ℚ) (bestOff : ℤ),
      (acLoop buf maxSamples rate offs lastCorr bestCorr bestOff).1 = none →
      (acLoop buf maxSamples rate offs lastCorr bestCorr bestOff).2 = (bestCorr, bestOff) := by
  induction offs with
  | nil => intro _ _ _ _; rfl
  | cons offset rest ih =>
    intro lastCorr bestCorr bestOff h
    rw [acLoop] at h ⊢
    by_cases h1 : (9/10 : ℚ) < correlationAt buf maxSamples offset ∧
        lastCorr < correlationAt buf maxSamples offset
    · rw [if_pos h1] at h ⊢
      by_cases h2 : bestCorr < correlationAt buf maxSamples offset
      · rw [if_pos h2] at h; simp at h
      · rw [if_neg h2] at h ⊢; exact ih _ _ _ h
    · rw [if_neg h1] at h ⊢; exact ih _ _ _ h

/-- C2: in `autoCorrelate`, whenever the lag-search loop completes without
an early return, the tracked best score is still `0` (the source only ever
assigns `bestCorrelation` in the branch that immediately returns), so the
`bestCorrelation > 0.01` fallback can never fire and the function returns
the `-1` sentinel — contradicting the spec's step that such a completion
with tracked best `> 0.01` returns `sampleRate / bestOffset`. -/
theorem autoCorrelate_fallback_unreachable (buf : List ℚ) (rate : ℚ)
    (h : (acLoop buf (buf.length / 2) rate
           (List.range' 1 (buf.length / 2 - 1)) 1 0 (-1)).1 = none) :
    (acLoop buf (buf.length / 2) rate
       (List.range' 1 (buf.length / 2 - 1)) 1 0 (-1)).2.1 = 0 ∧
    PitchDetector.autoCorrelate buf rate = -1 := by
  have hbest := acLoop_none_best buf (buf.length / 2) rate
    (List.range' 1 (buf.length / 2 - 1)) 1 0 (-1) h
  have hsplit : acLoop buf (buf.length / 2) rate
      (List.range' 1 (buf.length / 2 - 1)) 1 0 (-1) = (none, 0, -1) := by
    rcases hres : acLoop buf (buf.length / 2) rate
      (List.range' 1 (buf.length / 2 - 1)) 1 0 (-1) with ⟨a, b, c⟩
    rw [hres] at h hbest
    simp only at h hbest
    rw [h, hbest]
  refine ⟨by rw [hsplit], ?_⟩
  unfold PitchDetector.autoCorrelate
  by_cases hg : (buf.foldl (fun acc v => acc + v * v) (0 : ℚ)) / (buf.length : ℚ) < 1/10000
  · rw [if_pos hg]
  · rw [if_neg hg, hsplit]
    norm_num

theorem autoCorrelate_fallback_witness :
    (acLoop [1/2, 1/2, 1/2, 1/2] 2 44100 (List.range' 1 1) 1 0 (-1)).1 = none ∧
    (1/100 : ℚ) < correlationAt [1/2, 1/2, 1/2, 1/2] 2 1 ∧
    ((acLoop [1/2, 1/2, 1/2, 1/2] 2 44100 (List.range' 1 1) 1 0 (-1)).2.1 = 0 ∧
      PitchDetector.autoCorrelate [1/2, 1/2, 1/2, 1/2] 44100 = -1) :=
  ⟨by norm_num [acLoop, correlationAt, List.range', List.range_succ],
    by norm_num [correlationAt, List.range_succ],
    autoCorrelate_fallback_unreachable [1/2, 1/2, 1/2, 1/2] 44100
      (by norm_num [acLoop, correlationAt, List.range', List.range_succ])⟩

/-! ## frequencyToNote (audioUtils.js lines 85–106), modelled over ℝ
since the source takes a base-2 logarithm. -/

/-- The 12 pitch-class names (line 88). -/
def noteNames : List String :=
  ["C", "C#", "D", "D#", "E", ("F" : String), "F#", "G", "G#", "A", "A#", "B"]

/-- Source `C0 = 440 * 2^(-4.75)` (line 90). -/
noncomputable def C0 : ℝ := 440 * (2 : ℝ) ^ (-(4.75 : ℝ))

/-- Source `halfSteps = 12 * Math.log2(frequency / C0)` (line 92). -/
noncomputable def halfSteps (freq : ℝ) : ℝ := 12 * Real.logb 2 (freq / C0)

/-- The JavaScript `%` remainder on numbers: `a - b * trunc (a / b)`
(truncated division; the result carries the sign of the dividend). -/
noncomputable def jsMod (a b : ℝ) : ℝ :=
  if 0 ≤ a / b then a - b * ⌊a / b⌋ else a - b * ⌈a / b⌉

/-- JavaScript `Math.round` over ℝ: round half towards `+∞`. -/
noncomputable def jsRoundR (x : ℝ) : ℤ := ⌊x + 1/2⌋

/-- Source `noteIndex = Math.round(halfSteps % 12)` (line 94). -/
noncomputable def noteIndex (freq : ℝ) : ℤ := jsRoundR (jsMod (halfSteps freq) 12)

/-- Source `octave = Math.floor(halfSteps / 12)` (line 93). -/
noncomputable def octaveOf (freq : ℝ) : ℤ := ⌊halfSteps freq / 12⌋

/-- Source `cents = Math.round((halfSteps % 1) * 100)` (line 97). -/
noncomputable def centsOf (freq : ℝ) : ℤ := jsRoundR (jsMod (halfSteps freq) 1 * 100)

/-- The object returned by `frequencyToNote` (lines 99–105).  The `note`
string (name concatenated with octave) and the echoed `frequency` field
carry no information beyond the fields kept here. -/
structure NoteEvent where
  noteName : Option String
  octave : ℤ
  cents : ℤ

/-- Source `frequencyToNote` (lines 85–106): `null` for non-positive input;
otherwise `noteNames[noteIndex]`, where a JS array read out of bounds
(negative index or index ≥ 12) yields `undefined`, modelled as `none`. -/
noncomputable def frequencyToNote (freq : ℝ) : Option NoteEvent :=
  if freq ≤ 0 then none
  else some
    { noteName :=
        if 0 ≤ noteIndex freq then noteNames[(noteIndex freq).toNat]? else none
      octave := octaveOf freq
      cents := centsOf freq }

theorem C0_pos : 0 < C0 := by
  unfold C0; positivity

theorem halfSteps_C0_mul_rpow (x : ℝ) :
    halfSteps (C0 * (2 : ℝ) ^ x) = 12 * x := by
  unfold halfSteps
  rw [mul_div_cancel_left₀ _ (ne_of_gt C0_pos)]
  rw [Real.logb_rpow (by norm_num) (by norm_num)]

theorem jsMod_of_nonneg_lt (a b : ℝ) (hb : 0 < b) (h0 : 0 ≤ a) (hab : a < b) :
    jsMod a b = a := by
  unfold jsMod
  have hdiv0 : 0 ≤ a / b := div_nonneg h0 hb.le
  have hdiv1 : a / b < 1 := (div_lt_one hb).mpr hab
  rw [if_pos hdiv0]
  have : ⌊a / b⌋ = 0 := Int.floor_eq_zero_iff.mpr ⟨hdiv0, hdiv1⟩
  rw [this]
  simp

/-- C5 counterexample: at the positive frequency `C0 * 2^(23/24)` (midway
between B and the next C, so `halfSteps = 11.5`), the computed index
`Math.round(halfSteps % 12)` is `12` — out of bounds for the 12-name
table, so the returned `noteName` is JS `undefined`. -/
theorem noteIndex_twelve_at_BC_boundary :
    0 < C0 * (2 : ℝ) ^ ((23 : ℝ)/24) ∧
    noteIndex (C0 * (2 : ℝ) ^ ((23 : ℝ)/24)) = 12 ∧
    ¬(0 ≤ noteIndex (C0 * (2 : ℝ) ^ ((23 : ℝ)/24)) ∧
       noteIndex (C0 * (2 : ℝ) ^ ((23 : ℝ)/24)) < 12) ∧
    (frequencyToNote (C0 * (2 : ℝ) ^ ((23 : ℝ)/24))).map NoteEvent.noteName
      = some none := by
  have hpos : (0:ℝ) < C0 * (2 : ℝ) ^ ((23 : ℝ)/24) :=
    mul_pos C0_pos (Real.rpow_pos_of_pos (by norm_num) _)
  have hhs : halfSteps (C0 * (2 : ℝ) ^ ((23 : ℝ)/24)) = 23/2 := by
    rw [halfSteps_C0_mul_rpow]; norm_num
  have hidx : noteIndex (C0 * (2 : ℝ) ^ ((23 : ℝ)/24)) = 12 := by
    unfold noteIndex jsRoundR
    rw [hhs, jsMod_of_nonneg_lt _ _ (by norm_num) (by norm_num) (by norm_num)]
    norm_num
  refine ⟨hpos, hidx, by rw [hidx]; norm_num, ?_⟩
  unfold frequencyToNote
  rw [if_neg (not_le.mpr hpos)]
  simp [hidx, noteNames]

/-- C5 (amended): for every strictly positive frequency whose offset within
the octave, `halfSteps % 12` (JS remainder), lies in `[0, 11.5)`, the
computed index `Math.round(halfSteps % 12)` is a valid in-bounds index into
the 12-name table.  (For offsets in `[11.5, 12)` the index is `12`, and for
negative `halfSteps` the JS remainder is negative, making the index
negative — both out of bounds; see the counterexample.) -/
theorem noteIndex_in_bounds (freq : ℝ) (h0 : 0 < freq)
    (hlo : 0 ≤ jsMod (halfSteps freq) 12)
    (hhi : jsMod (halfSteps freq) 12 < 23/2) :
    0 ≤ noteIndex freq ∧ noteIndex freq < 12 := by
  unfold noteIndex jsRoundR
  constructor
  · exact Int.floor_nonneg.mpr (by linarith)
  · exact Int.floor_lt.mpr (by push_cast; linarith)

theorem halfSteps_440 : halfSteps 440 = 57 := by
  have h : (440:ℝ) = C0 * (2 : ℝ) ^ ((19 : ℝ)/4) := by
    unfold C0
    rw [mul_assoc, ← Real.rpow_add (by norm_num : (0:ℝ) < 2)]
    norm_num [Real.rpow_zero]
  rw [h, halfSteps_C0_mul_rpow]; norm_num

theorem noteIndex_in_bounds_witness :
    (0:ℝ) < 440 ∧ 0 ≤ jsMod (halfSteps 440) 12 ∧
    jsMod (halfSteps 440) 12 < 23/2 ∧
    (0 ≤ noteIndex 440 ∧ noteIndex 440 < 12) := by
  have hmod : jsMod (halfSteps 440) 12 = 9 := by
    rw [halfSteps_440]
    unfold jsMod
    rw [if_pos (by norm_num)]
    norm_num
  exact ⟨by norm_num, by rw [hmod]; norm_num, by rw [hmod]; norm_num,
    noteIndex_in_bounds 440 (by norm_num) (by rw [hmod]; norm_num)
      (by rw [hmod]; norm_num)⟩

/-! ## KeyDetector (audioUtils.js lines 109–247) -/

/-- State of `KeyDetector`: `noteHistory` (capacity 50) and
`keyVoteHistory` (capacity 30).  The `keyVotes` count map is rebuilt from
scratch out of `keyVoteHistory` on every `detectKey` call before it is
read (and `clear` empties it), so it is derived data and not a stored
field here. -/
structure KeyDetector where
  noteHistory : List String
  keyVoteHistory : List String
deriving DecidableEq

/-- Source `maxHistory = 50` (line 112). -/
def maxHistory : ℕ := 50

/-- Source `maxKeyVotes = 30` (line 120). -/
def maxKeyVotes : ℕ := 30

/-- The Krumhansl-Schmuckler major profile (line 115). -/
def majorProfile : List ℚ :=
  [6.35, 2.23, 3.48, 2.33, 4.38, 4.09, 2.52, 5.19, 2.39, 3.66, 2.29, 2.88]

/-- The Krumhansl-Schmuckler minor profile (line 116). -/
def minorProfile : List ℚ :=
  [6.33, 2.68, 3.52, 5.38, 2.60, 3.53, 2.54, 4.75, 3.98, 2.69, 3.34, 3.17]

/-- The `noteMap` of line 140, in its JS insertion order (also the
iteration order of `Object.keys` at line 155). -/
def noteMap : List (String × ℕ) :=
  [("C", 0), ("C#", 1), ("D", 2), ("D#", 3), ("E", 4), ("F", 5),
   ("F#", 6), ("G", 7), ("G#", 8), ("A", 9), ("A#", 10), ("B", 11)]

/-- Source `KeyDetector.addNote` (lines 124–131): a falsy argument (`null` /
`undefined`, modelled `none`, or the empty string) returns immediately;
otherwise push with FIFO eviction at capacity 50. -/
def KeyDetector.addNote (s : KeyDetector) (noteName : Option String) : KeyDetector :=
  match noteName with
  | none => s
  | some n =>
    if n = "" then s
    else { s with noteHistory := pushShift maxHistory s.noteHistory n }

/-- The 12-bin note-occurrence count (lines 139–146); notes not present in
`noteMap` are ignored. -/
def noteCounts (history : List String) : List ℕ :=
  history.foldl
    (fun acc note =>
      match (noteMap.find? fun p => p.1 == note) with
      | some p => acc.set p.2 (acc.getD p.2 0 + 1)
      | none => acc)
    (List.replicate 12 0)

/-- Source `KeyDetector.correlate` (lines 228–234): dot product of the observed
profile with the reference profile read starting at `offset`, wrapping
modulo 12. -/
def KeyDetector.correlate (profile1 profile2 : List ℚ) (offset : ℕ) : ℚ :=
  (List.range 12).foldl
    (fun sum i => sum + profile1.getD i 0 * profile2.getD ((i + offset) % 12) 0) (0 : ℚ)

/-- Source `KeyDetector.getMaxCorrelation` (lines 236–240): the sum of the major
profile entries, used as the confidence-normalization denominator. -/
def KeyDetector.getMaxCorrelation : ℚ := majorProfile.foldl (· + ·) 0

/-- The best-key scan (lines 153–176): for each root in `noteMap` order,
test major then minor, keeping the strictly best correlation; ties keep
the earliest-found label.  (The `keyHistogram` of raw correlations built
alongside at lines 156–171 is never returned by the source and is
omitted.) -/
def bestKeySearch (noteProfile : List ℚ) : String × ℚ :=
  noteMap.foldl
    (fun (best : String × ℚ) p =>
      let best1 :=
        if best.2 < KeyDetector.correlate noteProfile majorProfile p.2 then
          (p.1 ++ " Major", KeyDetector.correlate noteProfile majorProfile p.2)
        else best
      if best1.2 < KeyDetector.correlate noteProfile minorProfile p.2 then
        (p.1 ++ " Minor", KeyDetector.correlate noteProfile minorProfile p.2)
      else best1)
    ("", -1)

/-- Rebuilding the `keyVotes` count map from scratch (lines 190–193); a JS
object with non-numeric string keys iterates in insertion order, modelled
as an association list in first-occurrence order. -/
def buildVotes (history : List String) : List (String × ℕ) :=
  history.foldl
    (fun acc key =>
      if acc.any fun p => p.1 == key then
        acc.map fun p => if p.1 == key then (p.1, p.2 + 1) else p
      else acc ++ [(key, 1)])
    []

/-- The consensus scan (lines 196–203): start from the instantaneous best
key with 0 votes, take each entry with strictly more votes than the
running maximum. -/
def consensusScan (bestKey : String) (votes : List (String × ℕ)) : String × ℕ :=
  votes.foldl (fun best p => if best.2 < p.2 then (p.1, p.2) else best) (bestKey, 0)

/-- The object returned by `detectKey` (lines 219–225).  On the
fewer-than-10-notes early return (lines 134–136) only `key` and
`confidence` are present; the other fields are JS `undefined`, modelled as
`none`. -/
structure KeyResult where
  key : String
  confidence : ℤ
  consensusKey : Option String
  consensusConfidence : Option ℤ
  histogram : Option (List (String × ℤ))
deriving DecidableEq

/-- Source `KeyDetector.detectKey` (lines 133–226), returning the updated state
and the result.  The vote histogram is sorted descending by percentage
with JS's stable `sort`, modelled by the stable `List.mergeSort`.  When no
note of the history is in `noteMap`, `total = 0` and rational division
yields a zero profile where JS floats would yield NaN; no claim touches
that case. -/
def KeyDetector.detectKey (s : KeyDetector) : KeyDetector × KeyResult :=
  if s.noteHistory.length < 10 then
    (s, { key := "Collecting data...", confidence := 0,
          consensusKey := none, consensusConfidence := none, histogram := none })
  else
    let counts := noteCounts s.noteHistory
    let total : ℕ := counts.foldl (· + ·) 0
    let noteProfile := counts.map fun c => (c : ℚ) / (total : ℚ)
    let best := bestKeySearch noteProfile
    let normalizedConfidence := best.2 / KeyDetector.getMaxCorrelation * 100
    let keyVoteHistory1 := pushShift maxKeyVotes s.keyVoteHistory best.1
    let keyVotes := buildVotes keyVoteHistory1
    let consensus := consensusScan best.1 keyVotes
    let len := keyVoteHistory1.length
    let voteHistogram :=
      (keyVotes.map fun p =>
        (p.1, if 0 < len then jsRound ((p.2 : ℚ) / (len : ℚ) * 100) else 0)).mergeSort
        fun a b => decide (b.2 ≤ a.2)
    let consensusConfidence : ℤ :=
      if 0 < len then jsRound ((consensus.2 : ℚ) / (len : ℚ) * 100) else 0
    ({ noteHistory := s.noteHistory, keyVoteHistory := keyVoteHistory1 },
     { key := best.1,
       confidence := jsRound (max 0 (min 100 normalizedConfidence)),
       consensusKey := some consensus.1,
       consensusConfidence := some consensusConfidence,
       histogram := some voteHistogram })

/-- Source `KeyDetector.clear` (lines 242–246). -/
def KeyDetector.clear (_ : KeyDetector) : KeyDetector :=
  { noteHistory := [], keyVoteHistory := [] }

/-- Source `n` successive `detectKey` calls, keeping the state. -/
def detectKeyIter (s : KeyDetector) : ℕ → KeyDetector
  | 0 => s
  | n + 1 => (KeyDetector.detectKey (detectKeyIter s n)).1

theorem noteCounts_fiftyC :
    noteCounts (List.replicate 50 "C") = [50, 0, 0, 0, 0, 0, 0, 0, 0, 0, 0, 0] := by
  decide

theorem range_twelve : List.range 12 = [0, 1, 2, 3, 4, 5, 6, 7, 8, 9, 10, 11] := by
  decide

/-- Evaluation of one `detectKey` call on a history of 50 `"C"` notes, for
an arbitrary prior vote history: the instantaneous key is `"C Major"`
(the observed profile is concentrated on C, whose major-profile weight
6.35 beats every other rotation), and the instantaneous confidence is
`round(6.35 / 41.79 * 100) = 15`. -/
theorem detectKey_fiftyC (kvh : List String) :
    KeyDetector.detectKey (KeyDetector.mk (List.replicate 50 "C") kvh) =
      (KeyDetector.mk (List.replicate 50 "C") (pushShift 30 kvh "C Major"),
       { key := "C Major",
         confidence := 15,
         consensusKey :=
           some (consensusScan "C Major" (buildVotes (pushShift 30 kvh "C Major"))).1,
         consensusConfidence :=
           some (if 0 < (pushShift 30 kvh "C Major").length then
             jsRound (((consensusScan "C Major"
                 (buildVotes (pushShift 30 kvh "C Major"))).2 : ℚ)
               / ((pushShift 30 kvh "C Major").length : ℚ) * 100) else 0),
         histogram :=
           some (((buildVotes (pushShift 30 kvh "C Major")).map fun p =>
             (p.1, if 0 < (pushShift 30 kvh "C Major").length then
               jsRound ((p.2 : ℚ) / ((pushShift 30 kvh "C Major").length : ℚ) * 100)
               else 0)).mergeSort fun a b => decide (b.2 ≤ a.2)) }) := by
  unfold KeyDetector.detectKey
  rw [if_neg (by simp)]
  simp only [noteCounts_fiftyC]
  norm_num [bestKeySearch, noteMap, KeyDetector.correlate, majorProfile, minorProfile,
    range_twelve, KeyDetector.getMaxCorrelation, jsRound, min_def, max_def, maxKeyVotes,
    show ("C" ++ " Major" : String) = "C Major" from by decide]

theorem pushShift_replicate_thirty (k : ℕ) (x : String) (hk : k < 30) :
    pushShift 30 (List.replicate k x) x = List.replicate (k + 1) x := by
  unfold pushShift
  rw [if_neg (by simp; omega), ← List.replicate_succ']

theorem detectKeyIter_fiftyC (k : ℕ) (hk : k ≤ 30) :
    detectKeyIter (KeyDetector.mk (List.replicate 50 "C") []) k
      = KeyDetector.mk (List.replicate 50 "C") (List.replicate k "C Major") := by
  induction k with
  | zero => rfl
  | succ n ih =>
    rw [detectKeyIter, ih (by omega), detectKey_fiftyC]
    simp only
    rw [pushShift_replicate_thirty n _ (by omega)]

theorem buildVotes_replicate_thirty :
    buildVotes (List.replicate 30 "C Major") = [("C Major", 30)] := by decide

/-- C1 counterexample: after 50 consecutive `"C"` observations, a single
`detectKey` call does return instantaneous key `"C Major"`, but its
instantaneous confidence is `15`, not greater than `90`: the winning
correlation `6.35` is divided by the *sum* of all twelve major-profile
weights (`41.79`), which caps the reachable confidence at about 15. -/
theorem keyDetector_fiftyC_not_over_90 :
    (KeyDetector.detectKey (KeyDetector.mk (List.replicate 50 "C") [])).2.key
      = "C Major" ∧
    (KeyDetector.detectKey (KeyDetector.mk (List.replicate 50 "C") [])).2.confidence
      = 15 ∧
    ¬ 90 < (KeyDetector.detectKey
        (KeyDetector.mk (List.replicate 50 "C") [])).2.confidence := by
  refine ⟨by rw [detectKey_fiftyC], by rw [detectKey_fiftyC],
    by rw [detectKey_fiftyC]; norm_num⟩

/-- C1 (amended): feeding `KeyDetector` 50 consecutive `"C"` pitch-class
observations, a single `detectKey` call returns instantaneous key
`"C Major"` with instantaneous confidence exactly 15 (not `> 90`); and the
30th such `detectKey` call returns consensus key `"C Major"` with
consensus confidence exactly 100. -/
theorem keyDetector_fiftyC_amended :
    (KeyDetector.detectKey (KeyDetector.mk (List.replicate 50 "C") [])).2.key
      = "C Major" ∧
    (KeyDetector.detectKey (KeyDetector.mk (List.replicate 50 "C") [])).2.confidence
      = 15 ∧
    (KeyDetector.detectKey
      (detectKeyIter (KeyDetector.mk (List.replicate 50 "C") []) 29)).2.consensusKey
        = some "C Major" ∧
    (KeyDetector.detectKey
      (detectKeyIter (KeyDetector.mk (List.replicate 50 "C") []) 29)).2.consensusConfidence
        = some 100 := by
  have h29 := detectKeyIter_fiftyC 29 (by omega)
  refine ⟨by rw [detectKey_fiftyC], by rw [detectKey_fiftyC], ?_, ?_⟩
  · rw [h29, detectKey_fiftyC]
    simp only
    rw [pushShift_replicate_thirty 29 _ (by omega), buildVotes_replicate_thirty]
    decide
  · rw [h29, detectKey_fiftyC]
    simp only
    rw [pushShift_replicate_thirty 29 _ (by omega), buildVotes_replicate_thirty]
    norm_num [consensusScan, jsRound]

/-- C7: with fewer than 10 notes accumulated, `detectKey` returns the
`"Collecting data..."` sentinel with confidence 0 (every other result
field is JS `undefined`) and leaves the state — in particular
`noteHistory` and `keyVoteHistory` — completely unchanged. -/
theorem detectKey_insufficient_sentinel (s : KeyDetector)
    (h : s.noteHistory.length < 10) :
    KeyDetector.detectKey s =
      (s, { key := "Collecting data...", confidence := 0,
            consensusKey := none, consensusConfidence := none,
            histogram := none }) := by
  unfold KeyDetector.detectKey
  rw [if_pos h]

theorem detectKey_insufficient_witness :
    (KeyDetector.mk ["C", "E", "G"] ["A Minor"]).noteHistory.length < 10 ∧
    KeyDetector.detectKey (KeyDetector.mk ["C", "E", "G"] ["A Minor"]) =
      (KeyDetector.mk ["C", "E", "G"] ["A Minor"],
       { key := "Collecting data...", confidence := 0, consensusKey := none,
         consensusConfidence := none, histogram := none }) :=
  ⟨by decide, detectKey_insufficient_sentinel _ (by decide)⟩

/-- C9: `addNote` with `null`/`undefined` (`none`) or the empty string —
every falsy JS string — is a no-op: nothing is appended to `noteHistory`
and nothing is evicted. -/
theorem addNote_falsy_noop (s : KeyDetector) (v : Option String)
    (h : v = none ∨ v = some "") :
    KeyDetector.addNote s v = s := by
  rcases h with h | h <;> subst h <;> rfl

theorem addNote_falsy_witness :
    ((none : Option String) = none ∨ (none : Option String) = some "") ∧
    KeyDetector.addNote (KeyDetector.mk ["A", "B"] ["C Major"]) none
      = KeyDetector.mk ["A", "B"] ["C Major"] :=
  ⟨Or.inl rfl, addNote_falsy_noop _ _ (Or.inl rfl)⟩

/-! ## BeatDetector (audioUtils.js lines 250–462) -/

/-- State of `BeatDetector`: the analyser configuration (`fftSize`,
`bufferLength = frequencyBinCount = fftSize/2`, the `Uint8Array`
`dataArray`) and the mutable fields set by `initBeatParams`
(lines 270–286). -/
structure BeatDetector where
  fftSize : ℕ
  bufferLength : ℕ
  dataArray : List ℕ
  energyHistory : List ℚ
  lastBeatTime : ℤ
  beatTimes : List ℤ
  currentBPM : ℚ
  bpmHistory : List ℤ
deriving DecidableEq

/-- Source `historySize = 43` (line 273). -/
def historySize : ℕ := 43

/-- Source `beatThreshold = 1.3` (line 274). -/
def beatThreshold : ℚ := 1.3

/-- Source `minTimeBetweenBeats = 300` ms (line 275). -/
def minTimeBetweenBeats : ℤ := 300

/-- Source `maxBeatHistory = 8` (line 280). -/
def maxBeatHistory : ℕ := 8

/-- Source `maxBPMHistory = 30` (line 285). -/
def maxBPMHistory : ℕ := 30

/-- The `BeatDetector` constructor (lines 251–261) with `initBeatParams`. -/
def BeatDetector.init (fftSize : ℕ) : BeatDetector :=
  { fftSize := fftSize, bufferLength := fftSize / 2,
    dataArray := List.replicate (fftSize / 2) 0,
    energyHistory := [], lastBeatTime := 0, beatTimes := [],
    currentBPM := 0, bpmHistory := [] }

/-- Source `BeatDetector.setFftSize` (lines 263–267); like the pitch detector's,
the analyser setter throws on an invalid size before any field is
written. -/
def BeatDetector.setFftSize (s : BeatDetector) (n : ℕ) : BeatDetector × Bool :=
  if validFftSize n then
    ({ s with
        fftSize := n
        bufferLength := n / 2
        dataArray := List.replicate (n / 2) 0 }, true)
  else (s, false)

/-- Source `BeatDetector.getEnergy` (lines 289–301) on a frequency-domain
snapshot delivered by the analyser (an external input): the mean of the
squared magnitudes over the first 10% of the bins.
`Math.floor(bufferLength * 0.1)` agrees with integer division
`bufferLength / 10` on every analyser bin count. -/
def BeatDetector.getEnergy (freqData : List ℕ) (bufferLength : ℕ) : ℚ :=
  ((List.range (bufferLength / 10)).foldl
    (fun sum i => sum + (freqData.getD i 0 : ℚ) * (freqData.getD i 0 : ℚ)) 0)
    / ((bufferLength / 10 : ℕ) : ℚ)

/-- The consecutive inter-beat intervals (lines 381–384 and 401–404). -/
def intervalsOf : List ℤ → List ℤ
  | [] => []
  | [_] => []
  | a :: b :: rest => (b - a) :: intervalsOf (b :: rest)

/-- Source `BeatDetector.calculateBPM` (lines 375–393): 0 with fewer than two
beat timestamps, else `60000 / averageInterval` clamped to `[40, 240]`.
(With exact rationals a zero average interval gives `60000/0 = 0` and the
clamp yields 40 where JS floats would give `Infinity` clamped to 240 —
both in range; unreachable anyway since recorded beats are over 300 ms
apart.) -/
def BeatDetector.calculateBPM (beatTimes : List ℤ) : ℚ :=
  if beatTimes.length < 2 then 0
  else
    let intervals := intervalsOf beatTimes
    let averageInterval := ((intervals.foldl (· + ·) 0 : ℤ) : ℚ) / (intervals.length : ℚ)
    max 40 (min 240 (60000 / averageInterval))

/-- Source `BeatDetector.calculateConfidence` (lines 395–423): coefficient of
variation of the inter-beat intervals, turned into `round(100 − CV)`
clamped to `[0, 100]`; 0 with fewer than three timestamps or a zero mean.
Defined over ℝ because the source takes a square root; the claims touch
only the other fields of the tick result. -/
noncomputable def BeatDetector.calculateConfidence (beatTimes : List ℤ) : ℤ :=
  if beatTimes.length < 3 then 0
  else
    let intervals := intervalsOf beatTimes
    let mean : ℝ := ((intervals.foldl (· + ·) 0 : ℤ) : ℝ) / (intervals.length : ℝ)
    if mean = 0 then 0
    else
      let variance := (intervals.foldl (fun sum i => sum + ((i : ℝ) - mean) ^ 2) 0)
          / (intervals.length : ℝ)
      let cv := Real.sqrt variance / mean * 100
      jsRoundR (max 0 (min 100 (100 - cv)))

/-- BPM bucketing `Math.round(bpm / 2) * 2` (line 434). -/
def bucketOf (bpm : ℤ) : ℤ := jsRound ((bpm : ℚ) / 2) * 2

/-- Source `BeatDetector.getBPMHistogram` (lines 425–449): bucket the BPM history
to the nearest multiple of 2, count, convert to percentages and sort
descending by percentage.  A JS object with integer-like keys enumerates
them in ascending numeric order, modelled by sorting the distinct buckets
ascending before the stable percentage sort.  Entries are
`(bpm, count, percentage)`. -/
def BeatDetector.getBPMHistogram (bpmHistory : List ℤ) : List (ℤ × ℕ × ℤ) :=
  if bpmHistory.length = 0 then []
  else
    let total := bpmHistory.length
    let keys := (bpmHistory.map bucketOf).dedup.mergeSort fun a b => decide (a ≤ b)
    (keys.map fun k =>
      (k, (bpmHistory.map bucketOf).count k,
        jsRound (((bpmHistory.map bucketOf).count k : ℚ) / (total : ℚ) * 100))).mergeSort
      fun a b => decide (b.2.2 ≤ a.2.2)

/-- The object returned by `detectBeat` (lines 364–372).  On the
warm-up early return (line 316) only `isBeat`, `bpm` and `confidence` are
present; the other fields are JS `undefined`, modelled as `none`.  The
`confidence` field always equals `calculateConfidence` of the post-state's
`beatTimes` (0 on the early return); it is defined separately above over ℝ
and omitted from this computable record. -/
structure BeatTick where
  isBeat : Bool
  bpm : ℤ
  consensusBPM : Option ℤ
  consensusConfidence : Option ℤ
  energy : Option ℤ
  histogram : Option (List (ℤ × ℕ × ℤ))
deriving DecidableEq

/-- Source `BeatDetector.detectBeat` (lines 304–373), given the analyser's
frequency snapshot and the `Date.now()` timestamp (both external inputs),
returning the updated state and the tick result. -/
def BeatDetector.detectBeat (s : BeatDetector) (freqData : List ℕ) (now : ℤ) :
    BeatDetector × BeatTick :=
  let energy := BeatDetector.getEnergy freqData s.bufferLength
  let energyHistory1 := pushShift historySize s.energyHistory energy
  if energyHistory1.length < historySize then
    ({ s with energyHistory := energyHistory1 },
     { isBeat := false, bpm := 0, consensusBPM := none,
       consensusConfidence := none, energy := none, histogram := none })
  else
    let averageEnergy := (energyHistory1.foldl (· + ·) 0) / (energyHistory1.length : ℚ)
    let isBeat := decide (averageEnergy * beatThreshold < energy)
                  && decide (minTimeBetweenBeats < now - s.lastBeatTime)
    let s1 :=
      if isBeat then
        let beatTimes1 := pushShift maxBeatHistory s.beatTimes now
        let bpm := BeatDetector.calculateBPM beatTimes1
        { s with
            energyHistory := energyHistory1
            lastBeatTime := now
            beatTimes := beatTimes1
            currentBPM := bpm
            bpmHistory :=
              if 0 < bpm then pushShift maxBPMHistory s.bpmHistory (jsRound bpm)
              else s.bpmHistory }
      else { s with energyHistory := energyHistory1 }
    let bpmHistogram := BeatDetector.getBPMHistogram s1.bpmHistory
    (s1,
     { isBeat := isBeat,
       bpm := jsRound s1.currentBPM,
       consensusBPM := some (match bpmHistogram with
         | [] => jsRound s1.currentBPM
         | top :: _ => top.1),
       consensusConfidence := some (match bpmHistogram with
         | [] => 0
         | top :: _ => top.2.2),
       energy := some (jsRound energy),
       histogram := some bpmHistogram })

/-- Source `BeatDetector.reset` (lines 455–461). -/
def BeatDetector.reset (s : BeatDetector) : BeatDetector :=
  { s with
      energyHistory := []
      beatTimes := []
      bpmHistory := []
      currentBPM := 0
      lastBeatTime := 0 }

/-! ## The app-level reconfiguration (App.jsx `handleFftSizeChange`) -/

/-- The three estimator instances held by the app. -/
structure ToneScopeApp where
  pitch : PitchDetector
  keyd : KeyDetector
  beat : BeatDetector
deriving DecidableEq

/-- Source `handleFftSizeChange` (App.jsx lines 246–254): calls
`pitchDetector.setFftSize(n)` then `beatDetector.setFftSize(n)`; a throw
from the first aborts the handler before the second.  The key detector has
no reconfiguration operation at all. -/
def ToneScopeApp.handleFftSizeChange (s : ToneScopeApp) (n : ℕ) : ToneScopeApp × Bool :=
  let p := s.pitch.setFftSize n
  if p.2 then
    ({ pitch := p.1, keyd := s.keyd, beat := (s.beat.setFftSize n).1 }, true)
  else (s, false)

/-- C3 counterexample: the requested length 256 is outside
{512, 1024, 2048, 4096, 8192}, yet `setFftSize` applies it rather than
declining (the analyser accepts any power of two in [32, 32768]): the
pitch detector's buffer length changes from 2048 to 256 and the beat
detector's bin count becomes 128. -/
theorem setFftSize_256_applied :
    (PitchDetector.setFftSize (PitchDetector.init 2048) 256).2 = true ∧
    (PitchDetector.setFftSize (PitchDetector.init 2048) 256).1.bufferLength = 256 ∧
    (PitchDetector.init 2048).bufferLength = 2048 ∧
    (BeatDetector.setFftSize (BeatDetector.init 2048) 256).2 = true ∧
    (BeatDetector.setFftSize (BeatDetector.init 2048) 256).1.bufferLength = 128 ∧
    ¬ (256 = 512 ∨ 256 = 1024 ∨ 256 = 2048 ∨ 256 = 4096 ∨ 256 = 8192) := by
  exact ⟨rfl, rfl, rfl, rfl, rfl, by decide⟩

/-- C3 (amended): the requests actually declined are exactly those the
analyser's `fftSize` setter rejects — any value that is not a power of two
in [32, 32768]; such a request throws and leaves the detector (buffer
length and buffers) completely unchanged, and an accepted size is applied
exactly as requested, never substituted.  But powers of two in that range
outside {512, 1024, 2048, 4096, 8192} are applied too (counterexample). -/
theorem setFftSize_invalid_declined (ps : PitchDetector) (bs : BeatDetector)
    (n : ℕ) (h : ¬ validFftSize n = true) :
    PitchDetector.setFftSize ps n = (ps, false) ∧
    BeatDetector.setFftSize bs n = (bs, false) := by
  unfold PitchDetector.setFftSize BeatDetector.setFftSize
  rw [if_neg h, if_neg h]
  exact ⟨rfl, rfl⟩

theorem setFftSize_invalid_witness :
    ¬ validFftSize 1000 = true ∧
    (PitchDetector.setFftSize (PitchDetector.init 2048) 1000
        = (PitchDetector.init 2048, false) ∧
      BeatDetector.setFftSize (BeatDetector.init 2048) 1000
        = (BeatDetector.init 2048, false)) :=
  ⟨by decide, setFftSize_invalid_declined _ _ 1000 (by decide)⟩

/-- C4: for every requested length `n` (accepted or thrown), the app-level
reconfiguration reallocates only the sampling buffers inside the pitch and
beat detectors; the key detector's `noteHistory` and `keyVoteHistory`, and
the beat detector's `energyHistory`, `beatTimes`, `bpmHistory` and
`lastBeatTime` (and `currentBPM`) are left untouched. -/
theorem handleFftSizeChange_preserves_histories (app : ToneScopeApp) (n : ℕ) :
    (app.handleFftSizeChange n).1.keyd = app.keyd ∧
    (app.handleFftSizeChange n).1.beat.energyHistory = app.beat.energyHistory ∧
    (app.handleFftSizeChange n).1.beat.beatTimes = app.beat.beatTimes ∧
    (app.handleFftSizeChange n).1.beat.bpmHistory = app.beat.bpmHistory ∧
    (app.handleFftSizeChange n).1.beat.lastBeatTime = app.beat.lastBeatTime ∧
    (app.handleFftSizeChange n).1.beat.currentBPM = app.beat.currentBPM := by
  unfold ToneScopeApp.handleFftSizeChange PitchDetector.setFftSize
    BeatDetector.setFftSize
  by_cases h : validFftSize n = true
  · simp [h]
  · simp [h]

theorem foldl_add_replicate (n : ℕ) (c : ℚ) :
    ∀ a : ℚ, (List.replicate n c).foldl (· + ·) a = a + n * c := by
  induction n with
  | zero => intro a; simp
  | succ m ih =>
    intro a
    rw [List.replicate_succ, List.foldl_cons, ih]
    push_cast
    ring

theorem calculateBPM_range (bt : List ℤ) (h : 2 ≤ bt.length) :
    40 ≤ BeatDetector.calculateBPM bt ∧ BeatDetector.calculateBPM bt ≤ 240 := by
  unfold BeatDetector.calculateBPM
  rw [if_neg (by omega)]
  exact ⟨le_max_left _ _, max_le (by norm_num) (min_le_left _ _)⟩

theorem calculateBPM_of_short (bt : List ℤ) (h : bt.length < 2) :
    BeatDetector.calculateBPM bt = 0 := by
  unfold BeatDetector.calculateBPM
  rw [if_pos h]

theorem jsRound_mem_Icc (q : ℚ) (h1 : 40 ≤ q) (h2 : q ≤ 240) :
    40 ≤ jsRound q ∧ jsRound q ≤ 240 := by
  unfold jsRound
  constructor
  · exact Int.le_floor.mpr (by push_cast; linarith)
  · have hlt : (⌊q + 1/2⌋ : ℤ) < 241 := Int.floor_lt.mpr (by push_cast; linarith)
    omega

theorem detectBeat_state_fields (s : BeatDetector) (freqData : List ℕ) (now : ℤ) :
    ((BeatDetector.detectBeat s freqData now).1.energyHistory
        = pushShift historySize s.energyHistory
            (BeatDetector.getEnergy freqData s.bufferLength)) ∧
    ((BeatDetector.detectBeat s freqData now).1.beatTimes = s.beatTimes ∨
      (BeatDetector.detectBeat s freqData now).1.beatTimes
        = pushShift maxBeatHistory s.beatTimes now) ∧
    ((BeatDetector.detectBeat s freqData now).1.bpmHistory = s.bpmHistory ∨
      ∃ q : ℚ, 40 ≤ q ∧ q ≤ 240 ∧
        (BeatDetector.detectBeat s freqData now).1.bpmHistory
          = pushShift maxBPMHistory s.bpmHistory (jsRound q)) := by
  unfold BeatDetector.detectBeat
  by_cases hl : (pushShift historySize s.energyHistory
      (BeatDetector.getEnergy freqData s.bufferLength)).length < historySize
  · refine ⟨by simp [hl], Or.inl (by simp [hl]), Or.inl (by simp [hl])⟩
  · by_cases hb : (decide ((pushShift historySize s.energyHistory
          (BeatDetector.getEnergy freqData s.bufferLength)).foldl (· + ·) 0
          / ((pushShift historySize s.energyHistory
              (BeatDetector.getEnergy freqData s.bufferLength)).length : ℚ)
          * beatThreshold < BeatDetector.getEnergy freqData s.bufferLength)
        && decide (minTimeBetweenBeats < now - s.lastBeatTime)) = true
    · refine ⟨by simp [hl, hb], Or.inr (by simp [hl, hb]), ?_⟩
      by_cases hz : 0 < BeatDetector.calculateBPM (pushShift maxBeatHistory s.beatTimes now)
      · by_cases hlen : (pushShift maxBeatHistory s.beatTimes now).length < 2
        · rw [calculateBPM_of_short _ hlen] at hz
          exact absurd hz (by norm_num)
        · refine Or.inr ⟨BeatDetector.calculateBPM (pushShift maxBeatHistory s.beatTimes now),
            (calculateBPM_range _ (by omega)).1, (calculateBPM_range _ (by omega)).2, ?_⟩
          simp [hl, hb, hz]
      · exact Or.inl (by simp [hl, hb, hz])
    · exact ⟨by simp [hl, hb], Or.inl (by simp [hl, hb]), Or.inl (by simp [hl, hb])⟩

/-- C6 (amended): on a `detectBeat` call whose `EnergyHistory` is at full
capacity (43 entries) after appending the current energy, a beat triggers
iff the current energy exceeds the mean of the history times 1.3 AND the
elapsed time since the last triggered beat STRICTLY exceeds 300 ms — the
source compares `currentTime - lastBeatTime > 300`, not `≥`; see the
counterexample at an elapsed time of exactly 300 ms. -/
theorem detectBeat_trigger_iff (s : BeatDetector) (freqData : List ℕ) (now : ℤ)
    (h : (pushShift historySize s.energyHistory
        (BeatDetector.getEnergy freqData s.bufferLength)).length = historySize) :
    (BeatDetector.detectBeat s freqData now).2.isBeat = true ↔
      (((pushShift historySize s.energyHistory
            (BeatDetector.getEnergy freqData s.bufferLength)).foldl (· + ·) 0)
          / ((pushShift historySize s.energyHistory
              (BeatDetector.getEnergy freqData s.bufferLength)).length : ℚ)
          * beatThreshold
        < BeatDetector.getEnergy freqData s.bufferLength ∧
       minTimeBetweenBeats < now - s.lastBeatTime) := by
  unfold BeatDetector.detectBeat
  rw [if_neg (by omega)]
  by_cases hb : (decide ((pushShift historySize s.energyHistory
        (BeatDetector.getEnergy freqData s.bufferLength)).foldl (· + ·) 0
        / ((pushShift historySize s.energyHistory
            (BeatDetector.getEnergy freqData s.bufferLength)).length : ℚ)
        * beatThreshold < BeatDetector.getEnergy freqData s.bufferLength)
      && decide (minTimeBetweenBeats < now - s.lastBeatTime)) = true
  · simp only [hb]
    simp only [Bool.and_eq_true, decide_eq_true_eq] at hb
    simpa using hb
  · simp only [hb]
    simp only [Bool.and_eq_true, decide_eq_true_eq] at hb
    simpa using hb

theorem getEnergy_ten : BeatDetector.getEnergy [10] 10 = 100 := by
  norm_num [BeatDetector.getEnergy, List.range_succ, List.range_zero]

theorem pushShift_fortytwo (e : ℚ) :
    pushShift historySize (List.replicate 42 (1:ℚ)) e = List.replicate 42 1 ++ [e] := by
  unfold pushShift historySize
  rw [if_neg (by simp)]

/-- C6 counterexample: with a full (43-entry, after append) energy history
whose mean times 1.3 is far below the current energy, and an elapsed time
since the last beat of exactly 300 ms, the claim ("at least 300 ms")
asserts a trigger, but `detectBeat` does not trigger: the source requires
strictly more than 300 ms. -/
theorem detectBeat_at_exactly_300ms_no_beat :
    BeatDetector.getEnergy [10] 10 = 100 ∧
    (pushShift historySize (List.replicate 42 (1:ℚ)) 100).length = historySize ∧
    ((pushShift historySize (List.replicate 42 (1:ℚ)) 100).foldl (· + ·) 0)
        / ((pushShift historySize (List.replicate 42 (1:ℚ)) 100).length : ℚ)
        * beatThreshold < 100 ∧
    (300:ℤ) - 0 ≥ minTimeBetweenBeats ∧
    (BeatDetector.detectBeat
        (BeatDetector.mk 2048 10 (List.replicate 10 0) (List.replicate 42 1) 0 [] 0 [])
        [10] 300).2.isBeat = false := by
  have hsum : ((List.replicate 42 (1:ℚ) ++ [100]).foldl (· + ·) 0) = 142 := by
    rw [List.foldl_append, foldl_add_replicate]
    norm_num
  refine ⟨getEnergy_ten, by rw [pushShift_fortytwo]; simp [historySize], ?_, ?_, ?_⟩
  · rw [pushShift_fortytwo, hsum]
    simp only [List.length_append, List.length_replicate, List.length_cons,
      List.length_nil]
    norm_num [beatThreshold]
  · norm_num [minTimeBetweenBeats]
  · have hno : ¬ (minTimeBetweenBeats < (300:ℤ) - 0) := by
      norm_num [minTimeBetweenBeats]
    unfold BeatDetector.detectBeat
    rw [if_neg (by simp [pushShift, historySize])]
    simp [hno]
    intro _
    norm_num [minTimeBetweenBeats]

theorem detectBeat_trigger_witness :
    (pushShift historySize (List.replicate 42 (1:ℚ))
        (BeatDetector.getEnergy [10] 10)).length = historySize ∧
    ((BeatDetector.detectBeat
        (BeatDetector.mk 2048 10 (List.replicate 10 0) (List.replicate 42 1) 0 [] 0 [])
        [10] 301).2.isBeat = true ↔
      (((pushShift historySize (List.replicate 42 (1:ℚ))
            (BeatDetector.getEnergy [10] 10)).foldl (· + ·) 0)
          / ((pushShift historySize (List.replicate 42 (1:ℚ))
              (BeatDetector.getEnergy [10] 10)).length : ℚ) * beatThreshold
        < BeatDetector.getEnergy [10] 10 ∧
       minTimeBetweenBeats < 301 - 0)) :=
  ⟨by simp [pushShift, historySize],
   detectBeat_trigger_iff
     (BeatDetector.mk 2048 10 (List.replicate 10 0) (List.replicate 42 1) 0 [] 0 [])
     [10] 301 (by simp [pushShift, historySize])⟩

/-- C8: every operation preserves the capacity bounds of the bounded
histories (`noteHistory ≤ 50`, `keyVoteHistory ≤ 30`,
`energyHistory ≤ 43`, `beatTimes ≤ 8`, `bpmHistory ≤ 30`), and the shared
push-then-shift eviction is strict FIFO: when the list is below capacity
the element is appended, and at capacity exactly the single oldest entry
(the head) is dropped. -/
theorem histories_bounded_fifo {α : Type}
    (ks : KeyDetector) (v : Option String) (bs : BeatDetector)
    (freqData : List ℕ) (now : ℤ) (cap : ℕ) (l : List α) (x : α)
    (h1 : ks.noteHistory.length ≤ maxHistory)
    (h2 : ks.keyVoteHistory.length ≤ maxKeyVotes)
    (h3 : bs.energyHistory.length ≤ historySize)
    (h4 : bs.beatTimes.length ≤ maxBeatHistory)
    (h5 : bs.bpmHistory.length ≤ maxBPMHistory)
    (h6 : 0 < cap) (h7 : l.length ≤ cap) :
    (KeyDetector.addNote ks v).noteHistory.length ≤ maxHistory ∧
    (KeyDetector.addNote ks v).keyVoteHistory.length ≤ maxKeyVotes ∧
    (KeyDetector.detectKey ks).1.noteHistory.length ≤ maxHistory ∧
    (KeyDetector.detectKey ks).1.keyVoteHistory.length ≤ maxKeyVotes ∧
    (BeatDetector.detectBeat bs freqData now).1.energyHistory.length ≤ historySize ∧
    (BeatDetector.detectBeat bs freqData now).1.beatTimes.length ≤ maxBeatHistory ∧
    (BeatDetector.detectBeat bs freqData now).1.bpmHistory.length ≤ maxBPMHistory ∧
    pushShift cap l x = if l.length < cap then l ++ [x] else l.tail ++ [x] := by
  obtain ⟨he, hbt, hbpm⟩ := detectBeat_state_fields bs freqData now
  refine ⟨?_, ?_, ?_, ?_, ?_, ?_, ?_, pushShift_eq_of_le cap l x h6 h7⟩
  · cases v with
    | none => exact h1
    | some n =>
      by_cases hn : n = ""
      · simp only [KeyDetector.addNote, if_pos hn]; exact h1
      · simp only [KeyDetector.addNote, if_neg hn]
        exact pushShift_length_le _ _ _ h1
  · cases v with
    | none => exact h2
    | some n =>
      by_cases hn : n = ""
      · simp only [KeyDetector.addNote, if_pos hn]; exact h2
      · simp only [KeyDetector.addNote, if_neg hn]; exact h2
  · unfold KeyDetector.detectKey
    by_cases hl : ks.noteHistory.length < 10
    · rw [if_pos hl]; exact h1
    · rw [if_neg hl]; exact h1
  · unfold KeyDetector.detectKey
    by_cases hl : ks.noteHistory.length < 10
    · rw [if_pos hl]; exact h2
    · rw [if_neg hl]; exact pushShift_length_le _ _ _ h2
  · rw [he]; exact pushShift_length_le _ _ _ h3
  · rcases hbt with heq | heq
    · rw [heq]; exact h4
    · rw [heq]; exact pushShift_length_le _ _ _ h4
  · rcases hbpm with heq | ⟨q, _, _, heq⟩
    · rw [heq]; exact h5
    · rw [heq]; exact pushShift_length_le _ _ _ h5

theorem histories_bounded_fifo_witness :
    (KeyDetector.mk [] []).noteHistory.length ≤ maxHistory ∧
    (KeyDetector.mk [] []).keyVoteHistory.length ≤ maxKeyVotes ∧
    (BeatDetector.init 2048).energyHistory.length ≤ historySize ∧
    (BeatDetector.init 2048).beatTimes.length ≤ maxBeatHistory ∧
    (BeatDetector.init 2048).bpmHistory.length ≤ maxBPMHistory ∧
    0 < 2 ∧ ([(5:ℤ)] : List ℤ).length ≤ 2 ∧
    ((KeyDetector.addNote (KeyDetector.mk [] []) (some "C")).noteHistory.length
        ≤ maxHistory ∧
     (KeyDetector.addNote (KeyDetector.mk [] []) (some "C")).keyVoteHistory.length
        ≤ maxKeyVotes ∧
     (KeyDetector.detectKey (KeyDetector.mk [] [])).1.noteHistory.length ≤ maxHistory ∧
     (KeyDetector.detectKey (KeyDetector.mk [] [])).1.keyVoteHistory.length
        ≤ maxKeyVotes ∧
     (BeatDetector.detectBeat (BeatDetector.init 2048) [] 0).1.energyHistory.length
        ≤ historySize ∧
     (BeatDetector.detectBeat (BeatDetector.init 2048) [] 0).1.beatTimes.length
        ≤ maxBeatHistory ∧
     (BeatDetector.detectBeat (BeatDetector.init 2048) [] 0).1.bpmHistory.length
        ≤ maxBPMHistory ∧
     pushShift 2 [(5:ℤ)] 7
        = if ([(5:ℤ)] : List ℤ).length < 2 then [(5:ℤ)] ++ [7]
          else ([(5:ℤ)] : List ℤ).tail ++ [7]) :=
  ⟨by decide, by decide, by decide, by decide, by decide, by decide, by decide,
   histories_bounded_fifo (KeyDetector.mk [] []) (some "C") (BeatDetector.init 2048)
     [] 0 2 [(5:ℤ)] 7 (by decide) (by decide) (by decide) (by decide) (by decide)
     (by decide) (by decide)⟩

/-- C10: every value `detectBeat` ever appends to `bpmHistory` lies in
`[40, 240]` (so if every stored value was in range, it stays in range):
with at least two beat timestamps `calculateBPM` clamps to `[40, 240]`,
with fewer it returns 0, and a zero BPM is never appended. -/
theorem bpmHistory_in_range (s : BeatDetector) (freqData : List ℕ) (now : ℤ)
    (bt2 bt1 : List ℤ) (h2 : 2 ≤ bt2.length) (h1 : bt1.length < 2)
    (hinv : ∀ x ∈ s.bpmHistory, 40 ≤ x ∧ x ≤ 240) :
    (∀ x ∈ (BeatDetector.detectBeat s freqData now).1.bpmHistory,
        40 ≤ x ∧ x ≤ 240) ∧
    (40 ≤ BeatDetector.calculateBPM bt2 ∧ BeatDetector.calculateBPM bt2 ≤ 240) ∧
    BeatDetector.calculateBPM bt1 = 0 := by
  refine ⟨?_, calculateBPM_range bt2 h2, calculateBPM_of_short bt1 h1⟩
  obtain ⟨-, -, hbpm⟩ := detectBeat_state_fields s freqData now
  rcases hbpm with heq | ⟨q, hq1, hq2, heq⟩
  · rw [heq]; exact hinv
  · rw [heq]
    intro x hx
    rcases mem_pushShift _ _ _ _ hx with hx | hx
    · exact hinv x hx
    · subst hx
      exact jsRound_mem_Icc q hq1 hq2

theorem bpmHistory_in_range_witness :
    2 ≤ ([0, 500] : List ℤ).length ∧ (([] : List ℤ)).length < 2 ∧
    (∀ x ∈ (BeatDetector.init 2048).bpmHistory, 40 ≤ x ∧ x ≤ 240) ∧
    ((∀ x ∈ (BeatDetector.detectBeat (BeatDetector.init 2048) [] 0).1.bpmHistory,
        40 ≤ x ∧ x ≤ 240) ∧
     (40 ≤ BeatDetector.calculateBPM [0, 500] ∧
       BeatDetector.calculateBPM [0, 500] ≤ 240) ∧
     BeatDetector.calculateBPM [] = 0) :=
  ⟨by decide, by decide,
   by
    intro x hx
    rw [show (BeatDetector.init 2048).bpmHistory = ([] : List ℤ) from rfl] at hx
    exact absurd hx (List.not_mem_nil x),
   bpmHistory_in_range (BeatDetector.init 2048) [] 0 [0, 500] []
     (by decide) (by decide)
     (by
      intro x hx
      rw [show (BeatDetector.init 2048).bpmHistory = ([] : List ℤ) from rfl] at hx
      exact absurd hx (List.not_mem_nil x))⟩
